import Mathlib

/-!
Shallow embedding of `src/components.rs` from the drogue-wasm repository:
simulated digital input/output pins driven through a web presentation
surface. Pure data (the `OutputVisual` composer, the LED colour table) is
translated directly from the source; the stateful parts (the pins, the
single-slot notification primitive, the DOM content of bound elements) are
modelled as explicit state passing. `MaybeUninit` fields are modelled as
`Option`, with a read of uninitialized storage mapped to `none` (failure),
and a panicking DOM lookup likewise mapped to `none`.
-/

/-- Abbreviation for the `&'static str` payloads of the source. -/
abbrev Str := String

/-- Poll result of a future, as in `core::task::Poll`. -/
inductive Poll (T : Type) where
  | pending
  | ready (t : T)
deriving DecidableEq

/-- Modelled from the spec: the notification primitive (`embassy`'s
`Signal<T>`, an external dependency whose source is not in this repository)
is a single-slot mailbox whose state is empty, holding a registered waiter,
or holding one pending value (spec §4.1 and §3 "Notification Primitive"). -/
inductive SignalState (T : Type) where
  | none
  | waiting
  | signaled (t : T)
deriving DecidableEq

/-- Modelled from the spec: `Signal::new()` creates the primitive empty. -/
def Signal.new (T : Type) : SignalState T := SignalState.none

/-- Modelled from the spec: `notify(value)`/`Signal::signal` stores `value`
as pending, overwriting any unread prior value and replacing any registered
waiter (which is woken). -/
def Signal.signal (v : T) (_s : SignalState T) : SignalState T :=
  SignalState.signaled v

/-- Modelled from the spec: `reset()` clears any pending value and discards
any prior waiter registration. -/
def Signal.reset (_s : SignalState T) : SignalState T :=
  SignalState.none

/-- Modelled from the spec: polling the `wait()` suspension point yields the
pending value (consuming it) once `notify` has been called since the last
`reset`; until then it records the current task as the waiter and reports
not ready. This is `Signal::poll_wait`, reached through
`SignalFuture::poll` in the source. -/
def Signal.poll_wait (s : SignalState T) : SignalState T × Poll T :=
  match s with
  | SignalState.none => (SignalState.waiting, Poll.pending)
  | SignalState.waiting => (SignalState.waiting, Poll.pending)
  | SignalState.signaled v => (SignalState.none, Poll.ready v)

/-- State of `InputPin`: an atomic boolean level plus one `Signal<()>`. -/
structure InputPinState where
  high : Bool
  signal : SignalState Unit
deriving DecidableEq

/-- `InputPin::new()`: level starts `true`, signal starts empty. -/
def InputPin.new : InputPinState :=
  { high := true, signal := Signal.new Unit }

/-- The click-event handler registered by `InputPin::configure`: it toggles
the stored level (`true→false`, `false→true`) and signals the notification
primitive with the unit value. -/
def InputPin.click (s : InputPinState) : InputPinState :=
  { high := if s.high then false else true
    signal := Signal.signal () s.signal }

/-- `InputPin::get_value`: load the current level. -/
def InputPin.get_value (s : InputPinState) : Bool :=
  s.high

/-- `InputPin::wait`: reset the signal, then hand out its suspension point
(`SignalFuture::new(&self.signal)`); polling that future is
`Signal.poll_wait` on the pin's signal. -/
def InputPin.wait (s : InputPinState) : InputPinState :=
  { s with signal := Signal.reset s.signal }

/-- `WaitForAnyEdge for WebButton`: `wait_for_any_edge` delegates to
`InputPin::wait` on the wrapped pin. -/
def WebButton.wait_for_any_edge (s : InputPinState) : InputPinState :=
  InputPin.wait s

/-- `embedded_hal InputPin for WebButton`: `is_high` returns
`Ok(self.pin.get_value())`. -/
def WebButton.is_high (s : InputPinState) : Except Unit Bool :=
  Except.ok (InputPin.get_value s)

/-- `embedded_hal InputPin for WebButton`: `is_low` also returns
`Ok(self.pin.get_value())` (the source does not negate). -/
def WebButton.is_low (s : InputPinState) : Except Unit Bool :=
  Except.ok (InputPin.get_value s)

/-- `LedColor`: the five colour tags. -/
inductive LedColor where
  | Red
  | Green
  | Yellow
  | Orange
  | Blue
deriving DecidableEq, Fintype

/-- `OutputVisual`: a literal text payload or a `(color, state)` LED pair. -/
inductive OutputVisual where
  | String (s : Str)
  | Led (c : LedColor) (b : Bool)
deriving DecidableEq

/-- `impl Add<LedColor> for bool`: `b + c = OutputVisual::Led(c, b)`. -/
def boolAddColor (b : Bool) (c : LedColor) : OutputVisual :=
  OutputVisual.Led c b

/-- `impl Add<bool> for LedColor`: `c + b = OutputVisual::Led(c, b)`. -/
def colorAddBool (c : LedColor) (b : Bool) : OutputVisual :=
  OutputVisual.Led c b

/-- The `to_led!` macro: an SVG fragment with a filled circle; when the
state is true the fill is the on-shade and a stroke in the off-shade is
present, when false the fill is the off-shade with no stroke. -/
def to_led (state : Bool) (onS offS : Str) : Str :=
  match state with
  | true =>
      "<svg height=\"50\" width=\"50\"><circle cx=\"25\" cy=\"25\" r=\"10\" fill=\""
        ++ onS ++ "\" stroke-width=\"3\" stroke=\"" ++ offS ++ "\"/></svg>"
  | false =>
      "<svg height=\"50\" width=\"50\"><circle cx=\"25\" cy=\"25\" r=\"10\" fill=\""
        ++ offS ++ "\" /></svg>"

/-- The per-colour on-shade literal of `AsRef<str> for OutputVisual`. -/
def LedColor.onShade (c : LedColor) : Str :=
  match c with
  | LedColor.Red => "red"
  | LedColor.Green => "lightgreen"
  | LedColor.Yellow => "yellow"
  | LedColor.Orange => "orange"
  | LedColor.Blue => "lightblue"

/-- The per-colour off-shade literal of `AsRef<str> for OutputVisual`. -/
def LedColor.offShade (c : LedColor) : Str :=
  match c with
  | LedColor.Red => "darkred"
  | LedColor.Green => "darkgreen"
  | LedColor.Yellow => "#94a000"
  | LedColor.Orange => "#a97200"
  | LedColor.Blue => "darkblue"

/-- `AsRef<str> for OutputVisual`: a literal renders to itself, an LED pair
renders through `to_led!` with the colour's shade pair. -/
def OutputVisual.as_ref (v : OutputVisual) : Str :=
  match v with
  | OutputVisual.String s => s
  | OutputVisual.Led c state => to_led state c.onShade c.offShade

/-- `From<bool> for OutputVisual`: `true ↦ String("ON")`,
`false ↦ String("OFF")`. -/
def OutputVisual.ofBool (v : Bool) : OutputVisual :=
  match v with
  | true => OutputVisual.String "ON"
  | false => OutputVisual.String "OFF"

/-- Whether the character list `p` occurs contiguously inside `l`. -/
def occursIn (p : List Char) : List Char → Bool
  | [] => p.isEmpty
  | c :: t => p.isPrefixOf (c :: t) || occursIn p t

/-- Whether the string `pat` occurs as a contiguous substring of `s`. -/
def strContains (s pat : Str) : Bool :=
  occursIn pat.data s.data

/-- State of `OutputPin`: an atomic boolean level plus the `MaybeUninit`
element reference and transform function, modelled as `Option` (`none` is
the uninitialized state). -/
structure OutputPinState where
  high : Bool
  element : Option Str
  transform : Option (Bool → OutputVisual)

/-- `OutputPin::new()`: level `false`, element and transform uninitialized. -/
def OutputPin.new : OutputPinState :=
  { high := false, element := Option.none, transform := Option.none }

/-- The presentation surface: maps an element id to its current inner
content, `none` when no element with that id exists. -/
def Dom : Type := Str → Option Str

/-- `OutputPin::set_value`: read the element reference and transform (a read
of uninitialized storage is undefined, modelled as `none`), store the level,
locate the bound element (`unwrap` panics when absent, modelled as `none`),
render `transform(high)` and push its text as the element's content. -/
def OutputPin.set_value (s : OutputPinState) (dom : Dom) (high : Bool) :
    Option (OutputPinState × Dom) :=
  match s.element, s.transform with
  | Option.some element, Option.some transform =>
      match dom element with
      | Option.some _ =>
          Option.some
            ({ s with high := high },
              fun id =>
                if id = element then
                  Option.some (OutputVisual.as_ref (transform high))
                else dom id)
      | Option.none => Option.none
  | _, _ => Option.none

/-- `OutputPin::configure`: write the element reference and the transform
into their cells, then perform an initial `set_value(false)`. -/
def OutputPin.configure (s : OutputPinState) (dom : Dom) (element : Str)
    (transform : Bool → OutputVisual) : Option (OutputPinState × Dom) :=
  OutputPin.set_value
    { s with element := Option.some element, transform := Option.some transform }
    dom false

/-- Reading an `OutputPin` whose element, transform and DOM element are all
present succeeds and yields the updated pin and surface contents. -/
lemma OutputPin.set_value_eq (s : OutputPinState) (dom : Dom) (e : Str)
    (f : Bool → OutputVisual) (h0 : Str) (he : s.element = Option.some e)
    (hf : s.transform = Option.some f) (hd : dom e = Option.some h0)
    (level : Bool) :
    OutputPin.set_value s dom level
      = Option.some ({ s with high := level },
          fun id =>
            if id = e then Option.some (OutputVisual.as_ref (f level))
            else dom id) := by
  simp only [OutputPin.set_value, he, hf, hd]

/-- One click flips the stored level. -/
lemma InputPin.get_value_click (s : InputPinState) :
    InputPin.get_value (InputPin.click s) = !InputPin.get_value s := by
  cases s with
  | mk h sg => cases h <;> rfl

/-- Parity of a successor, in the `Bool` form used by the toggle law. -/
lemma mod_two_succ_beq (n : Nat) : ((n + 1) % 2 == 1) = !(n % 2 == 1) := by
  rcases Nat.mod_two_eq_zero_or_one n with h | h <;> simp [Nat.add_mod, h]

/-- Claim C1: each click-event firing toggles the stored level and signals
the notification primitive with the unit value, so after `n` firings
`get_value` equals the initial level XORed with `n % 2`; a freshly
constructed `InputPin` starts at level `true`. -/
theorem inputPin_read_after_n_clicks :
    (∀ (s : InputPinState) (n : Nat),
        InputPin.get_value (InputPin.click^[n] s)
          = Bool.xor (InputPin.get_value s) (n % 2 == 1))
    ∧ InputPin.get_value InputPin.new = true
    ∧ ∀ s : InputPinState,
        (InputPin.click s).signal = Signal.signal () s.signal := by
  refine ⟨?_, rfl, fun s => rfl⟩
  intro s n
  induction n with
  | zero => simp
  | succ n ih =>
      rw [Function.iterate_succ_apply', InputPin.get_value_click, ih,
        mod_two_succ_beq]
      cases InputPin.get_value s <;> cases (n % 2 == 1) <;> rfl

/-- Claim C2: the pin's wait operation (exposed as `wait_for_any_edge` on
`WebButton`) resets the signal and hands out its suspension point, so any
notification issued before the reset is discarded (polling reports pending
from any prior signal state) and the future resolves once the next
toggle-driven notify occurs after the reset, whether the click happens
before or after the waiter is registered. -/
theorem inputPin_wait_resets_then_suspends :
    ∀ s : InputPinState,
      WebButton.wait_for_any_edge s = InputPin.wait s
      ∧ (InputPin.wait s).signal = SignalState.none
      ∧ Signal.poll_wait (InputPin.wait s).signal
          = (SignalState.waiting, Poll.pending)
      ∧ Signal.poll_wait (InputPin.click (InputPin.wait s)).signal
          = (SignalState.none, Poll.ready ())
      ∧ Signal.poll_wait
          (InputPin.click
            { InputPin.wait s with
                signal := (Signal.poll_wait (InputPin.wait s).signal).1 }).signal
          = (SignalState.none, Poll.ready ()) := by
  intro s
  exact ⟨rfl, rfl, rfl, rfl, rfl⟩

/-- Claim C3 counterexample: a notify issued while no waiter is active (on
the fresh, empty signal) is NOT observed by the next call to the pin's
`wait()`: that call resets the signal first, so polling the returned future
reports pending rather than completing. -/
theorem inputPin_wait_discards_pending_notify :
    Signal.signal () (Signal.new Unit) = SignalState.signaled ()
    ∧ (Signal.poll_wait
        (InputPin.wait
          { high := true, signal := Signal.signal () (Signal.new Unit) }).signal).2
        = Poll.pending
    ∧ (Signal.poll_wait
        (InputPin.wait
          { high := true, signal := Signal.signal () (Signal.new Unit) }).signal).2
        ≠ Poll.ready () := by
  exact ⟨rfl, rfl, by decide⟩

/-- Claim C3 (amended): a notify issued with no active waiter stays pending
and is observed by the next poll of the primitive's own wait suspension
point when no reset intervenes, completing without a further notify — for
every prior signal state, in fact. -/
theorem signal_pending_observed_by_next_poll (T : Type) (v : T)
    (s : SignalState T) :
    Signal.poll_wait (Signal.signal v s) = (SignalState.none, Poll.ready v) :=
  rfl

/-- Claim C4: rendering `Led(color, state)` yields an SVG circle whose fill
is the on-shade with a stroke in the off-shade when the state is true, and
whose fill is the off-shade with no stroke attribute when false; the five
colour tags carry pairwise distinct shade pairs, and the true/false
renderings differ for every colour. -/
theorem led_render_shades :
    ∀ c : LedColor,
      strContains (OutputVisual.as_ref (OutputVisual.Led c true))
          ("fill=\"" ++ c.onShade ++ "\"") = true
      ∧ strContains (OutputVisual.as_ref (OutputVisual.Led c true))
          ("stroke=\"" ++ c.offShade ++ "\"") = true
      ∧ strContains (OutputVisual.as_ref (OutputVisual.Led c false))
          ("fill=\"" ++ c.offShade ++ "\"") = true
      ∧ strContains (OutputVisual.as_ref (OutputVisual.Led c false))
          "stroke" = false
      ∧ OutputVisual.as_ref (OutputVisual.Led c true)
          ≠ OutputVisual.as_ref (OutputVisual.Led c false)
      ∧ ∀ c' : LedColor,
          c.onShade = c'.onShade → c.offShade = c'.offShade → c = c' := by
  decide

/-- Claim C5: `set_value(level)` on a configured pin whose element exists
stores the level, leaves the configuration untouched, and pushes the text
of `transform(level)` as the bound element's content; a second write of the
same level reproduces the identical payload, and for the indicator and
ON/OFF mappings the true and false payloads differ. -/
theorem outputPin_set_value_spec (s : OutputPinState) (dom : Dom) (e : Str)
    (f : Bool → OutputVisual) (h0 : Str) (he : s.element = Option.some e)
    (hf : s.transform = Option.some f) (hd : dom e = Option.some h0)
    (level : Bool) :
    ∃ s1 dom1,
      OutputPin.set_value s dom level = Option.some (s1, dom1)
      ∧ s1.high = level
      ∧ s1.element = s.element
      ∧ s1.transform = s.transform
      ∧ dom1 e = Option.some (OutputVisual.as_ref (f level))
      ∧ (∃ s2 dom2,
          OutputPin.set_value s1 dom1 level = Option.some (s2, dom2)
          ∧ dom2 e = dom1 e)
      ∧ (∀ c : LedColor, f = (fun b => OutputVisual.Led c b) →
          OutputVisual.as_ref (f true) ≠ OutputVisual.as_ref (f false))
      ∧ (f = OutputVisual.ofBool →
          OutputVisual.as_ref (f true) ≠ OutputVisual.as_ref (f false)) := by
  have hs1 := OutputPin.set_value_eq s dom e f h0 he hf hd level
  have hd1 :
      (fun id =>
        if id = e then Option.some (OutputVisual.as_ref (f level))
        else dom id) e = Option.some (OutputVisual.as_ref (f level)) := by
    simp
  have hs2 := OutputPin.set_value_eq { s with high := level }
    (fun id =>
      if id = e then Option.some (OutputVisual.as_ref (f level)) else dom id)
    e f (OutputVisual.as_ref (f level)) he hf hd1 level
  refine ⟨_, _, hs1, rfl, rfl, rfl, hd1, ⟨_, _, hs2, ?_⟩, ?_, ?_⟩
  · simp [hd1]
  · intro c hfc
    subst hfc
    cases c <;> decide
  · intro hfb
    subst hfb
    decide

/-- Claim C5 witness: a concrete configured pin with the ON/OFF mapping and
an existing bound element; `set_value true` succeeds. -/
theorem outputPin_set_value_spec_witness :
    (OutputPinState.element
        { high := false, element := Option.some "led",
          transform := Option.some OutputVisual.ofBool } = Option.some "led")
    ∧ ((fun id => if id = "led" then Option.some "" else Option.none : Dom)
        "led" = Option.some "")
    ∧ (OutputPin.set_value
        { high := false, element := Option.some "led",
          transform := Option.some OutputVisual.ofBool }
        (fun id => if id = "led" then Option.some "" else Option.none)
        true).isSome = true := by
  refine ⟨rfl, rfl, ?_⟩
  obtain ⟨s1, dom1, hs, -⟩ :=
    outputPin_set_value_spec
      { high := false, element := Option.some "led",
        transform := Option.some OutputVisual.ofBool }
      (fun id => if id = "led" then Option.some "" else Option.none)
      "led" OutputVisual.ofBool "" rfl rfl rfl true
  rw [hs]
  rfl

/-- Claim C6: `configure(element, transform)` binds the element reference
and the transform, then performs an initial write of `false`: afterwards
the level is `false` and the element's content is the text of
`transform(false)`. -/
theorem outputPin_configure_initial_write (s : OutputPinState) (dom : Dom)
    (e : Str) (f : Bool → OutputVisual) (h0 : Str)
    (hd : dom e = Option.some h0) :
    ∃ s1 dom1,
      OutputPin.configure s dom e f = Option.some (s1, dom1)
      ∧ s1.element = Option.some e
      ∧ s1.transform = Option.some f
      ∧ s1.high = false
      ∧ dom1 e = Option.some (OutputVisual.as_ref (f false)) := by
  have hs1 := OutputPin.set_value_eq
    { s with element := Option.some e, transform := Option.some f }
    dom e f h0 rfl rfl hd false
  exact ⟨_, _, hs1, rfl, rfl, rfl, by simp⟩

/-- Claim C6 witness: configuring a fresh pin against a surface holding the
element leaves level `false` and content `"OFF"` (= `ofBool false` rendered). -/
theorem outputPin_configure_initial_write_witness :
    ((fun id => if id = "led" then Option.some "" else Option.none : Dom)
        "led" = Option.some "")
    ∧ ∃ s1 dom1,
        OutputPin.configure OutputPin.new
            (fun id => if id = "led" then Option.some "" else Option.none)
            "led" OutputVisual.ofBool = Option.some (s1, dom1)
        ∧ s1.element = Option.some "led"
        ∧ s1.transform = Option.some OutputVisual.ofBool
        ∧ s1.high = false
        ∧ dom1 "led"
            = Option.some (OutputVisual.as_ref (OutputVisual.ofBool false)) :=
  ⟨rfl,
    outputPin_configure_initial_write OutputPin.new
      (fun id => if id = "led" then Option.some "" else Option.none)
      "led" OutputVisual.ofBool "" rfl⟩

/-- Claim C7: a write before configuration reads uninitialized storage and
fails, while on a pin whose element and transform were both set (as
`configure` does) and whose element exists, the reads inside `set_value`
are of initialized storage and the write succeeds. -/
theorem outputPin_write_requires_configure (s : OutputPinState) (dom : Dom)
    (level : Bool) :
    (s.element = Option.none ∨ s.transform = Option.none →
        OutputPin.set_value s dom level = Option.none)
    ∧ (∀ e f h0, s.element = Option.some e → s.transform = Option.some f →
        dom e = Option.some h0 →
        (OutputPin.set_value s dom level).isSome = true) := by
  constructor
  · intro h
    rcases h with h | h
    · simp only [OutputPin.set_value, h]
    · cases he2 : s.element with
      | none => simp only [OutputPin.set_value, he2]
      | some e => simp only [OutputPin.set_value, he2, h]
  · intro e f h0 he hf hd
    rw [OutputPin.set_value_eq s dom e f h0 he hf hd level]
    rfl

/-- Claim C7 witness: the fresh unconfigured pin fails on write; the
configured pin from the C5 scenario succeeds. -/
theorem outputPin_write_requires_configure_witness :
    OutputPin.set_value OutputPin.new (fun _ => Option.none) true
        = Option.none
    ∧ (OutputPin.set_value
        { high := false, element := Option.some "led",
          transform := Option.some OutputVisual.ofBool }
        (fun id => if id = "led" then Option.some "" else Option.none)
        true).isSome = true :=
  ⟨(outputPin_write_requires_configure OutputPin.new
      (fun _ => Option.none) true).1 (Or.inl rfl),
    (outputPin_write_requires_configure
      { high := false, element := Option.some "led",
        transform := Option.some OutputVisual.ofBool }
      (fun id => if id = "led" then Option.some "" else Option.none)
      true).2 "led" OutputVisual.ofBool "" rfl rfl rfl⟩

/-- Claim C8: combining a boolean and a colour with `+` in either order
yields the indicator Visual `OutputVisual::Led(c, b)` — a symmetric, pure
constructor. -/
theorem add_bool_color_symmetric :
    ∀ (b : Bool) (c : LedColor),
      boolAddColor b c = OutputVisual.Led c b
      ∧ colorAddBool c b = OutputVisual.Led c b
      ∧ boolAddColor b c = colorAddBool c b := by
  intro b c
  exact ⟨rfl, rfl, rfl⟩

/-- Claim C9: converting a bare boolean into a Visual and rendering it
yields the literal `"ON"` for true and `"OFF"` for false. -/
theorem ofBool_renders_on_off :
    OutputVisual.as_ref (OutputVisual.ofBool true) = "ON"
    ∧ OutputVisual.as_ref (OutputVisual.ofBool false) = "OFF" :=
  ⟨rfl, rfl⟩

/-- Claim C10: for every pin state, `WebButton::is_high` and
`WebButton::is_low` both return `Ok` of the current level — `is_low` equals
`is_high` rather than its negation. -/
theorem webButton_is_high_is_low :
    ∀ s : InputPinState,
      WebButton.is_high s = Except.ok (InputPin.get_value s)
      ∧ WebButton.is_low s = Except.ok (InputPin.get_value s)
      ∧ WebButton.is_low s = WebButton.is_high s
      ∧ WebButton.is_low s ≠ Except.ok (!InputPin.get_value s) := by
  intro s
  refine ⟨rfl, rfl, rfl, ?_⟩
  cases h : InputPin.get_value s <;> simp [WebButton.is_low, h]
